import Mathlib

/- Shallow embedding of the vector-store integration layer of this
repository: the HanaVectorStore methods (similarity_search, add_documents,
_init_table, close), the SAPHanaRM retrieval module (forward, the
lru_cache around _get_embedding), and the vector-store HTTP API handlers
(vector_store_search, vector_store_status). Vectors are modelled as lists
of rationals, fallible calls as Except values, and the SQL layer of
similarity_search as positional binding of a parameter list against the
placeholders of the statement text. -/

/-- A value bound to a SQL placeholder of a prepared statement. -/
inductive SqlValue where
  | vec (v : List Rat)
  | int (n : Int)
  | str (s : String)
deriving DecidableEq, Repr

/-- The placeholders of the similarity-search statement: the argument of
COSINE_SIMILARITY in the SELECT list, the metadata LIKE pattern of the
WHERE clause when a filter is present, and the LIMIT bound. -/
inductive SqlSlot where
  | cosineArg
  | likeArg
  | limitArg
deriving DecidableEq, Repr

/-- Placeholder slots of the SQL text built by
HanaVectorStore.similarity_search, in the order they occur in the
statement: COSINE_SIMILARITY first, then the WHERE clause placeholder when
a filter is present, then LIMIT. -/
def similarity_search_slots (hasFilter : Bool) : List SqlSlot :=
  [SqlSlot.cosineArg] ++ (if hasFilter then [SqlSlot.likeArg] else []) ++ [SqlSlot.limitArg]

/-- The parameter list similarity_search passes to cursor.execute: the
query vector first, then k, then the LIKE pattern derived from the filter
when one is present. The filter argument carries the string form of the
filter dict. -/
def similarity_search_params (query_vector : List Rat) (k : Int) (filter_dict : Option String) : List SqlValue :=
  [SqlValue.vec query_vector] ++ [SqlValue.int k] ++
    (match filter_dict with
     | some f => [SqlValue.str ("%" ++ f ++ "%")]
     | none => [])

/-- Positional binding of the parameter list against the placeholder
slots, as the SQL driver performs it. -/
def similarity_search_binding (query_vector : List Rat) (k : Int) (filter_dict : Option String) : List (SqlSlot × SqlValue) :=
  List.zip (similarity_search_slots filter_dict.isSome) (similarity_search_params query_vector k filter_dict)

/-- The k actually used by SAPHanaRM.forward, the Python expression
k or self.k: None and 0 are falsy and fall back to the configured
default, every other integer is truthy and is kept. -/
def forward_k (k : Option Int) (selfK : Int) : Int :=
  match k with
  | none => selfK
  | some v => if v = 0 then selfK else v

/-- Failures surfaced by the backing store during schema provisioning. -/
inductive StoreErr where
  | alreadyExists
  | otherFailure (msg : String)
deriving DecidableEq, Repr

/-- HanaVectorStore._init_table: query SYS.TABLES for the target table;
when it is absent run CREATE TABLE and then CREATE INDEX. The surrounding
except clause logs and re-raises, so every failure propagates unchanged. -/
def init_table (tableExists : Bool) (createTable : Except StoreErr Unit) (createIndex : Except StoreErr Unit) : Except StoreErr Unit :=
  if tableExists then Except.ok ()
  else createTable.bind fun _ => createIndex

/-- A document passed to add_documents: a dict whose id, text and metadata
keys may be absent, read with dict.get and its defaults. -/
structure DocIn where
  id : Option String
  text : Option String
  metadata : Option String
deriving DecidableEq, Repr

/-- One row written by the UPSERT statement of add_documents:
id, text, vector, metadata. -/
structure UpsertRow where
  id : Option String
  text : String
  vector : List Rat
  metadata : String
deriving DecidableEq, Repr

/-- HanaVectorStore.add_documents: rejects a count mismatch between
documents and embeddings, otherwise executes one UPSERT per pair. The
configured dimension is taken as an argument to record that the method
never consults it. -/
def add_documents (dimension : Nat) (documents : List DocIn) (embeddings : List (List Rat)) : Except String (List UpsertRow) :=
  if documents.length ≠ embeddings.length then
    Except.error "Number of documents must match number of embeddings"
  else
    Except.ok ((documents.zip embeddings).map fun p =>
      { id := p.1.id, text := p.1.text.getD "", vector := p.2, metadata := p.1.metadata.getD "\x7b\x7d" })

/-- The fields of HanaVectorStore that close reads: whether the connection
attribute exists and whether its value is truthy. close never writes
either of them. -/
structure CloseState where
  has_connection_attr : Bool
  connection_set : Bool
deriving DecidableEq, Repr

/-- HanaVectorStore.close: when the connection attribute is present and
truthy, invoke the transport close once. Returns the object state after
the call together with the number of transport close invocations the call
performed. The connection reference is not cleared by the method. -/
def close_step (s : CloseState) : CloseState × Nat :=
  if s.has_connection_attr && s.connection_set then (s, 1) else (s, 0)

/-- C1: with a non-null filter, similarity_search binds its parameters off
by one: the parameter list is query vector, k, pattern while the
placeholders read cosine argument, LIKE pattern, LIMIT, so the metadata
LIKE placeholder receives the integer k and the LIMIT placeholder
receives the filter pattern. The result set is therefore neither
restricted by the filter nor truncated to k as claimed. Evaluated at the
failing input query vector [1, 0], k = 2, filter string "a". -/
theorem similarity_search_filter_misbinding :
    similarity_search_binding [1, 0] 2 (some "a") =
      [(SqlSlot.cosineArg, SqlValue.vec [1, 0]),
       (SqlSlot.likeArg, SqlValue.int 2),
       (SqlSlot.limitArg, SqlValue.str "%a%")] := by
  rfl

/-- C2 counterexample: the caller-supplied k = -3 is non-positive, yet
forward uses -3 for the search rather than the configured default 5. -/
theorem forward_k_negative_not_defaulted :
    forward_k (some (-3)) 5 = -3 ∧ (-3 : Int) < 0 ∧ forward_k (some (-3)) 5 ≠ 5 := by
  decide

/-- C2 amended: forward falls back to the configured default exactly when
the caller passes no k or k = 0; every nonzero caller-supplied k,
negative values included, overrides the default. -/
theorem forward_k_spec (selfK v : Int) (hv : v ≠ 0) :
    forward_k none selfK = selfK ∧ forward_k (some 0) selfK = selfK ∧
    forward_k (some v) selfK = v := by
  refine ⟨rfl, rfl, ?_⟩
  simp [forward_k, hv]

/-- Witness for the amended C2 theorem at selfK = 5, v = -3. -/
theorem forward_k_spec_witness :
    forward_k none 5 = 5 ∧ forward_k (some 0) 5 = 5 ∧ forward_k (some (-3)) 5 = -3 :=
  forward_k_spec 5 (-3) (by decide)

/-- C4 counterexample: in the race where the existence check sees no table
and CREATE TABLE then fails with already-exists, _init_table re-raises the
failure instead of swallowing it. -/
theorem init_table_race_raises :
    init_table false (Except.error StoreErr.alreadyExists) (Except.ok ()) =
      Except.error StoreErr.alreadyExists := by
  rfl

/-- C4 amended: _init_table swallows nothing: when the pre-check finds the
table it performs no creation, and otherwise every creation failure,
already-exists included, propagates to the caller; idempotence rests
solely on the non-atomic pre-check. -/
theorem init_table_propagates (ct ci : Except StoreErr Unit) (e : StoreErr) :
    init_table true ct ci = Except.ok () ∧
    init_table false (Except.error e) ci = Except.error e ∧
    init_table false (Except.ok ()) ci = ci :=
  ⟨rfl, rfl, rfl⟩

/-- C5 counterexample: with configured dimension 3, a record whose vector
has length 2 is not rejected: add_documents succeeds and the mismatched
write reaches the store. -/
theorem add_documents_dimension_not_checked :
    add_documents 3 [{ id := some "d1", text := some "x", metadata := none }] [[1, 2]] =
      Except.ok [{ id := some "d1", text := "x", vector := [1, 2], metadata := "\x7b\x7d" }] ∧
    ([(1 : Rat), 2]).length ≠ 3 := by
  exact ⟨rfl, by decide⟩

/-- C5 amended: add_documents validates only that the document and
embedding counts agree; the configured dimension is never consulted, so a
vector of any length is written to the store. -/
theorem add_documents_spec (dimension dimension2 : Nat) (documents : List DocIn) (embeddings : List (List Rat)) :
    (add_documents dimension documents embeddings).toBool = (documents.length == embeddings.length) ∧
    add_documents dimension documents embeddings = add_documents dimension2 documents embeddings := by
  constructor
  · by_cases h : documents.length = embeddings.length <;>
      simp [add_documents, h, Except.toBool, Except.isOk]
  · rfl

/-- C6 counterexample: starting from an open store, the first close invokes
the transport close once, and the second close invokes it again rather
than being a no-op, because the connection reference was never cleared. -/
theorem close_second_call_not_noop :
    (close_step (CloseState.mk true true)).2 = 1 ∧
    (close_step (close_step (CloseState.mk true true)).1).2 = 1 := by
  decide

/-- C6 amended: close never mutates the object, so a second close repeats
exactly what the first did: with a set and truthy connection reference it
invokes the transport close again; it is a no-op only when the attribute
is missing or falsy. Idempotence of a double close therefore rests on the
driver, not on this method. -/
theorem close_step_spec (s : CloseState) :
    (close_step s).1 = s ∧ close_step (close_step s).1 = close_step s := by
  cases s with
  | mk a b => cases a <;> cases b <;> simp [close_step]

/-- The state of the functools.lru_cache wrapper around
SAPHanaRM._get_embedding: entries keyed by the text argument, most
recently used first. -/
abbrev EmbCache := List (String × List Rat)

/-- Lookup of a text key in the cache. -/
def cacheLookup : EmbCache → String → Option (List Rat)
  | [], _ => none
  | (s, v) :: rest, t => if s = t then some v else cacheLookup rest t

/-- Removal of a text key from the cache, keeping the order of the rest. -/
def cacheErase : EmbCache → String → EmbCache
  | [], _ => []
  | (s, v) :: rest, t => if s = t then rest else (s, v) :: cacheErase rest t

/-- One call through the lru_cache wrapper around _get_embedding: on a hit
the stored vector is returned and its entry moves to most recently used;
on a miss the compute step runs; a raised failure propagates and writes no
entry; a success is inserted as most recently used and entries beyond the
capacity are evicted from the least recently used end. Returns the result,
the cache afterwards, and how many times the compute step ran. -/
def getOrCompute (cap : Nat) (c : EmbCache) (t : String) (f : String → Except String (List Rat)) :
    Except String (List Rat) × EmbCache × Nat :=
  match cacheLookup c t with
  | some v => (Except.ok v, (t, v) :: cacheErase c t, 0)
  | none =>
    match f t with
    | Except.error e => (Except.error e, c, 1)
    | Except.ok v => (Except.ok v, ((t, v) :: c).take cap, 1)

/-- The compute step of _get_embedding, built from dspy.settings.embedder:
when none is configured the call raises, otherwise the embedder encodes
the text. -/
def get_embedding_compute (embedder : Option (String → Except String (List Rat))) (t : String) : Except String (List Rat) :=
  match embedder with
  | none => Except.error "No embedder configured in DSPy settings"
  | some enc => enc t

/-- The head entry of the cache is found by lookup. -/
theorem cacheLookup_cons_self (t : String) (v : List Rat) (c : EmbCache) :
    cacheLookup ((t, v) :: c) t = some v := by
  simp [cacheLookup]

/-- C7: when the first get-or-compute call for a text returns a vector,
the compute step ran on that call exactly when the text was not cached,
and the immediately following call for the same text is a hit: it returns
the same vector without running compute, so across the two calls compute
ran at most once, and a hit returns the stored vector with no compute
invocation. Capacity 1024 as configured on _get_embedding. -/
theorem getOrCompute_idempotent (c : EmbCache) (t : String)
    (f : String → Except String (List Rat)) (v : List Rat)
    (h : (getOrCompute 1024 c t f).1 = Except.ok v) :
    (getOrCompute 1024 c t f).2.2 = (if (cacheLookup c t).isSome then 0 else 1) ∧
    (getOrCompute 1024 (getOrCompute 1024 c t f).2.1 t f).1 = Except.ok v ∧
    (getOrCompute 1024 (getOrCompute 1024 c t f).2.1 t f).2.2 = 0 := by
  cases hl : cacheLookup c t with
  | some w =>
    have hw : w = v := by
      simp [getOrCompute, hl] at h
      exact h
    subst hw
    refine ⟨by simp [getOrCompute, hl], ?_, ?_⟩ <;>
      simp [getOrCompute, hl, cacheLookup_cons_self]
  | none =>
    cases hf : f t with
    | error e => simp [getOrCompute, hl, hf] at h
    | ok w =>
      have hw : w = v := by
        simp [getOrCompute, hl, hf] at h
        exact h
      subst hw
      have htake : ((t, w) :: c).take 1024 = (t, w) :: c.take 1023 := by
        rfl
      refine ⟨by simp [getOrCompute, hl, hf], ?_, ?_⟩ <;>
        simp [getOrCompute, hl, hf, htake, cacheLookup_cons_self]

/-- Witness for C7 at the empty cache, text hello and a compute step that
returns the vector [1, 2]. -/
theorem getOrCompute_idempotent_witness :
    (getOrCompute 1024 [] "hello" (fun _ => Except.ok [1, 2])).2.2 =
      (if (cacheLookup [] "hello").isSome then 0 else 1) ∧
    (getOrCompute 1024 (getOrCompute 1024 [] "hello" (fun _ => Except.ok [1, 2])).2.1 "hello"
        (fun _ => Except.ok [1, 2])).1 = Except.ok [1, 2] ∧
    (getOrCompute 1024 (getOrCompute 1024 [] "hello" (fun _ => Except.ok [1, 2])).2.1 "hello"
        (fun _ => Except.ok [1, 2])).2.2 = 0 :=
  getOrCompute_idempotent [] "hello" (fun _ => Except.ok [1, 2]) [1, 2] rfl

/-- C8: when the compute step fails on an uncached text, the failure
propagates, the cache is unchanged so no entry is written, and compute ran
once; the identical later call therefore runs compute again. The compute
step raises in particular when no embedder is configured. -/
theorem getOrCompute_failure_no_poison (c : EmbCache) (t : String)
    (f : String → Except String (List Rat)) (e : String)
    (hmiss : cacheLookup c t = none) (hf : f t = Except.error e) :
    getOrCompute 1024 c t f = (Except.error e, c, 1) ∧
    (getOrCompute 1024 (getOrCompute 1024 c t f).2.1 t f).2.2 = 1 ∧
    get_embedding_compute none t = Except.error "No embedder configured in DSPy settings" := by
  refine ⟨by simp [getOrCompute, hmiss, hf], ?_, rfl⟩
  simp [getOrCompute, hmiss, hf]

/-- Witness for C8 at the empty cache, text hello and the compute step of
an unconfigured embedder. -/
theorem getOrCompute_failure_no_poison_witness :
    getOrCompute 1024 [] "hello" (get_embedding_compute none) =
      (Except.error "No embedder configured in DSPy settings", [], 1) ∧
    (getOrCompute 1024 (getOrCompute 1024 [] "hello" (get_embedding_compute none)).2.1 "hello"
        (get_embedding_compute none)).2.2 = 1 ∧
    get_embedding_compute none "hello" = Except.error "No embedder configured in DSPy settings" :=
  getOrCompute_failure_no_poison [] "hello" (get_embedding_compute none)
    "No embedder configured in DSPy settings" rfl rfl

/-- An HTTPException raised by a handler: status code and detail. -/
structure HExc where
  status_code : Nat
  detail : String
deriving DecidableEq, Repr

/-- The pydantic body of POST /search requests (VectorSearchRequest):
query is an arbitrary string with no emptiness constraint, k defaults
to 5 with no positivity constraint, filter_dict is optional and carried
here in its string form. -/
structure VectorSearchRequest where
  query : String
  k : Int := 5
  filter_dict : Option String := none
deriving DecidableEq, Repr

/-- One row of a store similarity-search result, a dict whose keys may be
absent. -/
structure ResultRow where
  id : Option String
  text : Option String
  metadata : Option (List (String × String))
  score : Option Rat
deriving DecidableEq, Repr

/-- A document of the /search response body: all four fields present. -/
structure RespDoc where
  id : String
  text : String
  metadata : List (String × String)
  score : Rat
deriving DecidableEq, Repr

/-- The /search response body: formatted documents and the latency. -/
structure SearchResponse where
  results : List RespDoc
  latency : Rat
deriving DecidableEq, Repr

/-- The environment a /search request runs against: the store returned by
get_vector_store as a similarity-search function over query vector, k and
filter, the embedder from dspy.settings, and the measured latency. -/
structure SearchEnv where
  store : Option (List Rat → Int → Option String → Except String (List ResultRow))
  embedder : Option (String → Except String (List Rat))
  latency : Rat

/-- The result-formatting loop of vector_store_search: each field is read
with dict.get, so an absent id or text becomes the empty string, absent
metadata the empty map and an absent score 0. -/
def formatDoc (r : ResultRow) : RespDoc :=
  { id := r.id.getD "", text := r.text.getD "", metadata := r.metadata.getD [], score := r.score.getD 0 }

/-- The POST /search handler vector_store_search: 503 when no store is
configured, 500 when the embedder is missing or fails on the query text,
500 when the store search fails, otherwise 200 with the formatted rows.
The Boolean records whether the store similarity search was invoked. The
request body is used as-is: nothing on the path validates the query
string or k. -/
def vector_store_search (env : SearchEnv) (req : VectorSearchRequest) : Except HExc SearchResponse × Bool :=
  match env.store with
  | none => (Except.error { status_code := 503, detail := "Vector store is not configured" }, false)
  | some store =>
    match env.embedder with
    | none => (Except.error { status_code := 500, detail := "Embedder not configured or not working" }, false)
    | some enc =>
      match enc req.query with
      | Except.error e => (Except.error { status_code := 500, detail := "Error generating embedding: " ++ e }, false)
      | Except.ok qv =>
        match store qv req.k req.filter_dict with
        | Except.error e => (Except.error { status_code := 500, detail := "Error performing similarity search: " ++ e }, true)
        | Except.ok rows => (Except.ok { results := rows.map formatDoc, latency := env.latency }, true)

/-- A concrete environment for the empty-query scenario: a configured
store returning no rows and a configured embedder returning a fixed
vector. -/
def emptyQueryEnv : SearchEnv :=
  { store := some (fun _ _ _ => Except.ok []),
    embedder := some (fun _ => Except.ok [1]),
    latency := 0 }

/-- C3 counterexample: a /search request whose query string is empty is
not rejected: against a configured store and embedder the handler invokes
the store similarity search and returns an ordinary 200 body, not a
400-class validation failure. -/
theorem empty_query_not_rejected :
    vector_store_search emptyQueryEnv { query := "" } =
      (Except.ok { results := [], latency := 0 }, true) := by
  rfl

/-- C3 amended: the handler applies no emptiness validation to the query:
whenever a store and an embedder are configured and the embedder succeeds
on the query text, the store similarity search is invoked, for the empty
query exactly as for any other. -/
theorem search_no_query_validation (env : SearchEnv) (req : VectorSearchRequest)
    (s : List Rat → Int → Option String → Except String (List ResultRow))
    (enc : String → Except String (List Rat)) (qv : List Rat)
    (hs : env.store = some s) (he : env.embedder = some enc)
    (hq : enc req.query = Except.ok qv) :
    (vector_store_search env req).2 = true := by
  simp only [vector_store_search, hs, he, hq]
  cases s qv req.k req.filter_dict <;> rfl

/-- Witness for the amended C3 theorem: the empty query against the
concrete environment. -/
theorem search_no_query_validation_witness :
    (vector_store_search emptyQueryEnv { query := "" }).2 = true :=
  search_no_query_validation emptyQueryEnv { query := "" }
    (fun _ _ _ => Except.ok []) (fun _ => Except.ok [1]) [1] rfl rfl rfl

/-- C10: when the store search succeeds, the handler returns exactly the
rows mapped through the dict.get defaults, and that mapping leaves no
field absent: a missing id or text becomes the empty string, missing
metadata the empty map, a missing score 0, while present values pass
through unchanged. -/
theorem search_response_defaults (env : SearchEnv) (req : VectorSearchRequest)
    (s : List Rat → Int → Option String → Except String (List ResultRow))
    (enc : String → Except String (List Rat)) (qv : List Rat) (rows : List ResultRow)
    (hs : env.store = some s) (he : env.embedder = some enc)
    (hq : enc req.query = Except.ok qv) (hr : s qv req.k req.filter_dict = Except.ok rows) :
    (vector_store_search env req).1 =
      Except.ok { results := rows.map formatDoc, latency := env.latency } ∧
    ∀ r : ResultRow,
      (r.id = none → (formatDoc r).id = "") ∧
      (r.text = none → (formatDoc r).text = "") ∧
      (r.metadata = none → (formatDoc r).metadata = []) ∧
      (r.score = none → (formatDoc r).score = 0) ∧
      (∀ x, r.id = some x → (formatDoc r).id = x) ∧
      (∀ x, r.text = some x → (formatDoc r).text = x) ∧
      (∀ x, r.metadata = some x → (formatDoc r).metadata = x) ∧
      (∀ x, r.score = some x → (formatDoc r).score = x) := by
  constructor
  · simp only [vector_store_search, hs, he, hq, hr]
  · intro r
    refine ⟨?_, ?_, ?_, ?_, ?_, ?_, ?_, ?_⟩ <;> intros <;> simp_all [formatDoc]

/-- A result row with every key absent. -/
def emptyRow : ResultRow :=
  { id := none, text := none, metadata := none, score := none }

/-- A concrete environment for the defaults scenario: the store returns a
single row with every key absent. -/
def defaultsEnv : SearchEnv :=
  { store := some (fun _ _ _ => Except.ok [emptyRow]),
    embedder := some (fun _ => Except.ok [1]),
    latency := 0 }

/-- Witness for C10: one row with every key absent is returned as the
document with all four default values. -/
theorem search_response_defaults_witness :
    (vector_store_search defaultsEnv { query := "q" }).1 =
      Except.ok { results := [emptyRow].map formatDoc, latency := 0 } ∧
    ∀ r : ResultRow,
      (r.id = none → (formatDoc r).id = "") ∧
      (r.text = none → (formatDoc r).text = "") ∧
      (r.metadata = none → (formatDoc r).metadata = []) ∧
      (r.score = none → (formatDoc r).score = 0) ∧
      (∀ x, r.id = some x → (formatDoc r).id = x) ∧
      (∀ x, r.text = some x → (formatDoc r).text = x) ∧
      (∀ x, r.metadata = some x → (formatDoc r).metadata = x) ∧
      (∀ x, r.score = some x → (formatDoc r).score = x) :=
  search_response_defaults defaultsEnv { query := "q" }
    (fun _ _ _ => Except.ok [{ id := none, text := none, metadata := none, score := none }])
    (fun _ => Except.ok [1]) [1]
    [{ id := none, text := none, metadata := none, score := none }] rfl rfl rfl rfl

/-- The store as GET /status sees it: whether it has a connection
attribute, the outcome of the SELECT 1 FROM DUMMY probe, and the
attributes read with getattr and its unknown default. -/
structure StatusStore where
  has_connection : Bool
  probe : Except String Unit
  host : Option String
  schemaName : Option String
  tableName : Option String

/-- The body of a GET /status response: the dict keys the handler may
set, status and message always present. -/
structure StatusBody where
  status : String
  message : String
  storeType : Option String := none
  connection_ok : Option Bool := none
  host : Option String := none
  schemaName : Option String := none
  tableName : Option String := none
deriving DecidableEq, Repr

/-- The body of the GET /status handler inside its try: the no-store and
no-connection-attribute branches return fixed bodies; otherwise the probe
runs under its own inner try and its outcome selects connected or error. -/
def status_inner (store : Option StatusStore) : Except String StatusBody :=
  match store with
  | none => Except.ok { status := "not_configured", message := "Vector store is not configured" }
  | some vs =>
    if vs.has_connection then
      match vs.probe with
      | Except.ok _ =>
        Except.ok { status := "connected",
                    message := "Connected to SAP HANA Cloud",
                    storeType := some "sap_hana", connection_ok := some true,
                    host := some (vs.host.getD "unknown"),
                    schemaName := some (vs.schemaName.getD "unknown"),
                    tableName := some (vs.tableName.getD "unknown") }
      | Except.error _ =>
        Except.ok { status := "error",
                    message := "Error connecting to SAP HANA Cloud",
                    storeType := some "sap_hana", connection_ok := some false,
                    host := some (vs.host.getD "unknown"),
                    schemaName := some (vs.schemaName.getD "unknown"),
                    tableName := some (vs.tableName.getD "unknown") }
    else Except.ok { status := "unknown", message := "Vector store connection status could not be determined" }

/-- The GET /status handler vector_store_status: the whole body runs
inside a try whose except clause turns any raised failure into an error
body, so the handler answers with a body instead of raising. -/
def vector_store_status (store : Option StatusStore) : Except HExc StatusBody :=
  match status_inner store with
  | Except.ok b => Except.ok b
  | Except.error e => Except.ok { status := "error", message := e }

/-- C9: GET /status never raises: for every environment, the configured
store absent or its probe failing included, the handler returns a
response body rather than an HTTP error, and with no store configured the
body reports not_configured. -/
theorem status_never_raises (store : Option StatusStore) :
    (∃ b, vector_store_status store = Except.ok b) ∧
    vector_store_status none =
      Except.ok { status := "not_configured", message := "Vector store is not configured" } := by
  refine ⟨?_, rfl⟩
  cases h : status_inner store with
  | ok b => exact ⟨b, by simp [vector_store_status, h]⟩
  | error e => exact ⟨{ status := "error", message := e }, by simp [vector_store_status, h]⟩
